import Mathlib

/-!
Shallow embedding of `pelicanconf.py`, the single source file of the
blog.baturin.org repository: a flat Pelican site-configuration record made
of constant assignments. The definitions below transcribe those
assignments; the theorems settle the schema-shape properties the
specification states about the loaded record.
-/

/-- The flat site-configuration record that `pelicanconf.py` assigns.
Feed settings may be a path-template string or Python `None`, so they are
modelled as `Option String`; `LINKS` is the ordered blogroll of
(label, URL) pairs; `DEFAULT_PAGINATION` is a Python integer. -/
structure SiteConfig where
  AUTHOR : String
  SITENAME : String
  SITEURL : String
  PATH : String
  TIMEZONE : String
  DEFAULT_LANG : String
  FEED_ALL_ATOM : Option String
  CATEGORY_FEED_ATOM : Option String
  TRANSLATION_FEED_ATOM : Option String
  AUTHOR_FEED_ATOM : Option String
  AUTHOR_FEED_RSS : Option String
  LINKS : List (String × String)
  DEFAULT_PAGINATION : Int
  RELATIVE_URLS : Bool
  STATIC_PATHS : List String
  PIWIK_URL : String
  PIWIK_SITE_ID : String
  DISQUS_SITENAME : String
deriving DecidableEq

/-- `startsWithChars p cs` is true when the character list `cs` begins with
the character list `p`. -/
def startsWithChars : List Char → List Char → Bool
  | [], _ => true
  | _ :: _, [] => false
  | p :: ps, c :: cs => p == c && startsWithChars ps cs

/-- Number of occurrences of the character `a` in a character list. -/
def countChar (a : Char) : List Char → Nat
  | [] => 0
  | c :: cs => (if c == a then 1 else 0) + countChar a cs

/-- Number of (non-overlapping) occurrences of the two-character
substitution placeholder `%s` in a character list. -/
def countPS : List Char → Nat
  | [] => 0
  | '%' :: 's' :: cs => countPS cs + 1
  | _ :: cs => countPS cs

/-- Syntactic URL validity: the string carries an explicit `http` or
`https` scheme followed by a non-empty remainder. -/
def isValidURL (s : String) : Bool :=
  (startsWithChars "http://".data s.data && decide (7 < s.data.length)) ||
  (startsWithChars "https://".data s.data && decide (8 < s.data.length))

/-- A bare host name: non-empty, with no path separator and no scheme or
port delimiter, hence not a full URL. -/
def isBareHost (s : String) : Bool :=
  !s.data.isEmpty && countChar '/' s.data == 0 && countChar ':' s.data == 0

/-- True when the string ends with a `/` character. -/
def endsWithSlash (s : String) : Bool :=
  match s.data.getLast? with
  | some c => c == '/'
  | none => false

/-- Loading `pelicanconf.py`: the module body is a straight-line sequence
of constant assignments with no input, so a load is a pure function
producing the record of those constants. -/
def loadConfig (_u : Unit) : SiteConfig :=
  { AUTHOR := "Daniil Baturin"
    SITENAME := "dmbaturin's blog"
    SITEURL := "https://blog.baturin.org"
    PATH := "content"
    TIMEZONE := "Etc/UTC"
    DEFAULT_LANG := "en"
    FEED_ALL_ATOM := some "feeds/atom.xml"
    CATEGORY_FEED_ATOM := some "feeds/%s.atom.xml"
    TRANSLATION_FEED_ATOM := none
    AUTHOR_FEED_ATOM := none
    AUTHOR_FEED_RSS := none
    LINKS := [("dmbaturin's website", "http://baturin.org/"),
              ("VyOS project", "https://www.vyos.io/")]
    DEFAULT_PAGINATION := 10
    RELATIVE_URLS := true
    STATIC_PATHS := ["images"]
    PIWIK_URL := "matomo.baturin.org"
    PIWIK_SITE_ID := "blog.baturin.org"
    DISQUS_SITENAME := "blog-baturin-org" }

/-- The configuration record as loaded from `pelicanconf.py`. -/
def pelicanconf : SiteConfig := loadConfig ()

/-- C1: after loading the configuration, every required string field —
author, site name, site URL, timezone and default language — is present
and is a non-empty string. -/
theorem C1_required_string_fields_nonempty :
    pelicanconf.AUTHOR ≠ "" ∧ pelicanconf.SITENAME ≠ "" ∧
    pelicanconf.SITEURL ≠ "" ∧ pelicanconf.TIMEZONE ≠ "" ∧
    pelicanconf.DEFAULT_LANG ≠ "" := by
  decide

/-- C2: the pagination size field is a strictly positive integer and its
value is 10. -/
theorem C2_pagination_positive_ten :
    pelicanconf.DEFAULT_PAGINATION = 10 ∧
    0 < pelicanconf.DEFAULT_PAGINATION := by
  decide

/-- C3: the per-category feed path template, when enabled (non-`None`),
contains the `%s` substitution placeholder needed for category-specific
feed generation. -/
theorem C3_category_feed_has_placeholder (t : String)
    (h : pelicanconf.CATEGORY_FEED_ATOM = some t) : 1 ≤ countPS t.data := by
  injection h with h
  subst h
  decide

/-- Concrete instantiation of `C3_category_feed_has_placeholder` at the
template actually present in the configuration. -/
theorem C3_category_feed_has_placeholder_witness :
    1 ≤ countPS ("feeds/%s.atom.xml" : String).data :=
  C3_category_feed_has_placeholder "feeds/%s.atom.xml" rfl

/-- C4: every disabled feed kind — the translations feed, the per-author
Atom feed and the per-author RSS feed — takes the value `None`; each
feed-kind setting is an `Option String`, i.e. a path template or `None`
and nothing else. -/
theorem C4_disabled_feeds_are_none :
    pelicanconf.TRANSLATION_FEED_ATOM = none ∧
    pelicanconf.AUTHOR_FEED_ATOM = none ∧
    pelicanconf.AUTHOR_FEED_RSS = none := by
  decide

/-- C5: every entry of the blogroll is a (label, URL) pair whose label is
a non-empty string and whose URL is syntactically valid. -/
theorem C5_blogroll_entries_valid :
    pelicanconf.LINKS.all
      (fun p => !(p.1 == "") && isValidURL p.2) = true := by
  decide

/-- C6: the blogroll preserves insertion order: reading it yields exactly
the two source pairs in their source order. -/
theorem C6_blogroll_order :
    pelicanconf.LINKS =
      [("dmbaturin's website", "http://baturin.org/"),
       ("VyOS project", "https://www.vyos.io/")] := by
  decide

/-- C7: loading the configuration is deterministic and side-effect-free:
any two loads produce identical records, so every field of the first
equals the corresponding field of the second. -/
theorem C7_load_deterministic (u v : Unit) : loadConfig u = loadConfig v :=
  rfl

/-- C8 as stated is false at the actual configuration: the analytics
service identifier `PIWIK_URL` is `matomo.baturin.org`, a bare host name
with no scheme, so it is not a syntactically valid URL. -/
theorem C8_counterexample :
    ¬ (pelicanconf.PIWIK_URL ≠ "" ∧ pelicanconf.PIWIK_SITE_ID ≠ "" ∧
       pelicanconf.DISQUS_SITENAME ≠ "" ∧
       isValidURL pelicanconf.PIWIK_URL = true) := by
  decide

/-- C8 amended: the configuration defines the two analytics identifiers
and the comments-service identifier, each a non-empty string, and the
analytics service identifier is a bare host name (no scheme, path or
port), not a full URL. -/
theorem C8_amended_analytics_identifiers :
    pelicanconf.PIWIK_URL ≠ "" ∧ pelicanconf.PIWIK_SITE_ID ≠ "" ∧
    pelicanconf.DISQUS_SITENAME ≠ "" ∧
    isBareHost pelicanconf.PIWIK_URL = true := by
  decide

/-- C9: the canonical base URL carries the explicit `https` scheme and has
no trailing slash. -/
theorem C9_siteurl_https_no_trailing_slash :
    startsWithChars "https://".data pelicanconf.SITEURL.data = true ∧
    endsWithSlash pelicanconf.SITEURL = false := by
  decide

/-- C10: the per-category feed template contains exactly one `%s`
placeholder, the all-content feed path contains no `%` placeholder at
all, and neither enabled feed path begins with `/`. -/
theorem C10_feed_path_placeholders :
    Option.map (fun t => countPS t.data) pelicanconf.CATEGORY_FEED_ATOM
      = some 1 ∧
    Option.map (fun t => countChar '%' t.data) pelicanconf.FEED_ALL_ATOM
      = some 0 ∧
    Option.map (fun t => startsWithChars ['/'] t.data)
      pelicanconf.CATEGORY_FEED_ATOM = some false ∧
    Option.map (fun t => startsWithChars ['/'] t.data)
      pelicanconf.FEED_ALL_ATOM = some false := by
  decide
